import Mathlib

/-!
Verification development for the cluster-management backend
(`src/backend/server.py`).

The Python source is shallowly embedded below.  External collaborators
(the Gemini LLM, the HTTP transport, the JSON decoder of the standard
library) are modelled as explicit oracle inputs; everything the
repository itself computes is translated definition-by-definition from
the source.  Machine-level IPv4 arithmetic is done on `Nat` with
explicit `% 256` style decompositions.
-/

namespace Server

/-! ## String helpers

Small executable counterparts of the Python string operations used by
the source (`str.split`, `str.strip`, `str.startswith`, substring
test, `f"{i:02d}"` padding, `str.upper`).  They are written over
`List Char` so that every proof obligation can be discharged by
kernel computation. -/

/-- Python `f"{n:02d}"`: decimal rendering of `n` left-padded with `0`
to a minimum width of two characters. -/
def pad2 (n : Nat) : String :=
  if n < 10 then "0" ++ toString n else toString n

/-- Python whitespace as recognised by `str.strip()`. -/
def isPySpace (c : Char) : Bool :=
  c = ' ' || c = '\t' || c = '\n' || c = '\x0d' || c = '\x0b' || c = '\x0c'

/-- Python `s.strip()` (no arguments): remove leading and trailing
whitespace. -/
def pyStrip (s : String) : String :=
  ((s.data.dropWhile isPySpace).reverse.dropWhile isPySpace).reverse.asString

/-- Python `s.startswith(p)`. -/
def strStartsWith (s p : String) : Bool :=
  s.data.take p.data.length = p.data

/-- Python `p in s` (substring containment). -/
def strContains (s p : String) : Bool :=
  (List.range (s.data.length + 1)).any fun i =>
    decide ((s.data.drop i).take p.data.length = p.data)

/-- Split a character list at every occurrence of the (nonempty)
separator, scanning left to right; `acc` is the current chunk read so
far, in reverse.  Structural recursion on the fuel (every step
consumes at least one character, so fuel `length + 1` never runs
out); this keeps the function kernel-computable. -/
def splitOnChars (sep : List Char) : Nat → List Char → List Char → List (List Char)
  | _, [], acc => [acc.reverse]
  | 0, _, acc => [acc.reverse]
  | fuel + 1, c :: rest, acc =>
    if sep ≠ [] ∧ (c :: rest).take sep.length = sep then
      acc.reverse :: splitOnChars sep fuel (rest.drop (sep.length - 1)) []
    else
      splitOnChars sep fuel rest (c :: acc)

/-- Python `s.split(sep)` for a nonempty separator `sep`. -/
def strSplitOn (s sep : String) : List String :=
  (splitOnChars sep.data (s.data.length + 1) s.data []).map List.asString

/-- Python `s.upper()` for the ASCII strings of the source. -/
def strUpper (s : String) : String :=
  (s.data.map Char.toUpper).asString

/-! ## `ipaddress` standard-library model

`allocate_ips` calls `ipaddress.ip_network(subnet, strict=False)` and
`network.hosts()`.  We model IPv4 networks written in the usual
`a.b.c.d/p` (or bare `a.b.c.d`) CIDR form, with octet rules as in
CPython: decimal only, at most three digits, no leading zeros, value
at most `255`.  `strict=False` masks away any set host bits.  The
dotted-netmask/hostmask spellings accepted by CPython are not
modelled; the theorems below quantify only over subnets this parse
accepts. -/

/-- Decimal value of a digit string (`int(s)` on an all-digit `s`). -/
def digitsToNat : List Char → Nat → Nat
  | [], acc => acc
  | c :: rest, acc => digitsToNat rest (acc * 10 + (c.toNat - 48))

/-- Parse one dotted-quad octet, CPython `_parse_octet` rules. -/
def parseOctet (s : String) : Option Nat :=
  if s.data ≠ [] ∧ s.data.all Char.isDigit ∧ s.data.length ≤ 3 ∧
      (s.data.length ≤ 1 ∨ s.data.take 1 ≠ ['0']) then
    let n := digitsToNat s.data 0
    if n ≤ 255 then some n else none
  else none

/-- Parse a dotted-quad IPv4 address into its 32-bit numeric value. -/
def parseIPv4 (s : String) : Option Nat :=
  match (strSplitOn s ".").map parseOctet with
  | [some a, some b, some c, some d] =>
    some (a * 16777216 + b * 65536 + c * 256 + d)
  | _ => none

/-- Parse a prefix length: decimal digits, value at most 32. -/
def parsePrefixLen (s : String) : Option Nat :=
  if s.data ≠ [] ∧ s.data.all Char.isDigit then
    let n := digitsToNat s.data 0
    if n ≤ 32 then some n else none
  else none

/-- A parsed IPv4 network: the (already masked) network address and
the prefix length. -/
structure IPNetwork where
  network : Nat
  prefixlen : Nat
  deriving DecidableEq

/-- `ipaddress.ip_network(subnet, strict=False)` on the CIDR strings
modelled here: a bare address gets prefix length 32, otherwise
`addr/prefixlen`; with `strict=False` host bits are masked away. -/
def ip_network (subnet : String) : Option IPNetwork :=
  match strSplitOn subnet "/" with
  | [addr] =>
    match parseIPv4 addr with
    | some a => some ⟨a, 32⟩
    | none => none
  | [addr, p] =>
    match parseIPv4 addr, parsePrefixLen p with
    | some a, some n => some ⟨a / 2 ^ (32 - n) * 2 ^ (32 - n), n⟩
    | _, _ => none
  | _ => none

/-- The broadcast address of a network. -/
def IPNetwork.broadcast (net : IPNetwork) : Nat :=
  net.network + (2 ^ (32 - net.prefixlen) - 1)

/-- `network.hosts()` as a list of numeric addresses: all addresses of
the network except the network and broadcast addresses; for a `/31`
both addresses are usable, and a `/32` yields its single address
(CPython documented behaviour). -/
def hostsList (net : IPNetwork) : List Nat :=
  if net.prefixlen = 32 then [net.network]
  else if net.prefixlen = 31 then [net.network, net.broadcast]
  else (List.range (2 ^ (32 - net.prefixlen) - 2)).map (net.network + 1 + ·)

/-- `str(IPv4Address(n))`: dotted-quad rendering. -/
def ipToDotted (n : Nat) : String :=
  toString (n / 16777216 % 256) ++ "." ++ toString (n / 65536 % 256) ++ "." ++
    toString (n / 256 % 256) ++ "." ++ toString (n % 256)

/-- `str(e)` of the `ValueError` raised by `ipaddress.ip_network` on
an unparsable subnet string. -/
def netValueErrorMsg (subnet : String) : String :=
  "\x27" ++ subnet ++ "\x27 does not appear to be an IPv4 or IPv6 network"

/-! ## IP Allocation Agent (`IPAllocationAgent.allocate_ips`)

The Python method returns a list of dicts; each dict is either a full
node allocation or (after the `except` clause) a single error entry
`{"error": ...}`.  We model the dict union as `AllocEntry`.  A Python
exception inside the `try` block (an `IndexError` from
`available_ips[i]`, or the `ValueError` from parsing the subnet)
discards everything built so far, which the `Except` monad mirrors. -/

/-- One successful node allocation dict, fields as written by
`allocate_ips`. -/
structure NodeAllocation where
  node_type : String
  hostname : String
  fqdn : String
  console_ip : String
  allocated_ip : String
  subnet : String
  deriving DecidableEq

/-- An element of the list returned by `allocate_ips`: either a node
allocation dict or the `{"error": ...}` dict. -/
inductive AllocEntry where
  | node (a : NodeAllocation)
  | error (msg : String)
  deriving DecidableEq

/-- One iteration of the allocation loops: index `i` into the input
and host lists, role and role-local ordinal as in the source.
`available_ips[i]` out of range raises `IndexError`, whose `str` is
`"list index out of range"`. -/
def allocOne (node_ips available_ips : List String) (subnet fqdn : String)
    (role : String) (i ord : Nat) : Except String NodeAllocation :=
  match available_ips[i]? with
  | none => Except.error "list index out of range"
  | some aip =>
    Except.ok
      { node_type := role
        hostname := role ++ "-" ++ pad2 ord
        fqdn := role ++ "-" ++ pad2 ord ++ "." ++ fqdn
        console_ip := node_ips.getD i ""
        allocated_ip := aip
        subnet := subnet }

/-- `IPAllocationAgent.allocate_ips(node_ips, subnet, fqdn)`.
The first loop runs over `range(min(3, len(node_ips)))` building
masters; the second over `range(3, len(node_ips))` building workers
with `worker_index = i - 3` (written here as `i = 3 + k`,
`worker_index = k`). -/
def allocate_ips (node_ips : List String) (subnet : String) (fqdn : String) :
    List AllocEntry :=
  match ip_network subnet with
  | none =>
    [AllocEntry.error ("IP allocation failed: " ++ netValueErrorMsg subnet)]
  | some network =>
    let available_ips := (hostsList network).map ipToDotted
    let result : Except String (List NodeAllocation) := do
      let masters ← (List.range (min 3 node_ips.length)).mapM
        (fun i => allocOne node_ips available_ips subnet fqdn "master" i i)
      let workers ← (List.range (node_ips.length - 3)).mapM
        (fun k => allocOne node_ips available_ips subnet fqdn "worker" (3 + k) k)
      pure (masters ++ workers)
    match result with
    | Except.ok allocations => allocations.map AllocEntry.node
    | Except.error e => [AllocEntry.error ("IP allocation failed: " ++ e)]

/-! ## Google Sheets fetch (`GoogleSheetsManager.fetch_sheet_data`)

The HTTP transport (`aiohttp`) is an external collaborator, modelled
as a function from the requested URL to an outcome: either a raised
exception (with its `str`) or a status/body pair.  The function below
is a line-by-line translation of the Python control flow, including
the hard-coded CSV returned when the retry against the alternate
export URL also fails, and the `NameError` on non-Google URLs whose
body looks like HTML (`sheet_id` is only bound inside the
`docs.google.com` branch). -/

/-- Outcome of one HTTP GET. -/
inductive FetchResp where
  | exc (msg : String)
  | ok (status : Nat) (content : String)
  deriving DecidableEq

/-- The hard-coded sheet content returned when both fetch attempts
fail (triple-quoted literal in the source). -/
def MOCK_SHEET_DATA : String :=
  "FQDN,Subnet,Node1,Node2,Node3,Node4,Node5,Node6,Node7\n" ++
    "domain.abc.com,10.0.0.0/16,10.8.8.8,10.8.8.9,10.8.8.10,10.8.8.11,10.8.8.12,10.8.8.13,10.8.8.14"

/-- `sheets_url.split("/d/")[1].split("/")[0]`; `none` models the
`IndexError` when `"/d/"` does not occur. -/
def extractSheetId (sheets_url : String) : Option String :=
  match (strSplitOn sheets_url "/d/")[1]? with
  | none => none
  | some rest => some ((strSplitOn rest "/").getD 0 "")

/-- The CSV export URL built for a Google Sheets document id. -/
def exportUrl (sheet_id : String) : String :=
  "https://docs.google.com/spreadsheets/d/" ++ sheet_id ++ "/export?format=csv&gid=0"

/-- The alternate "public sheet direct access" URL used by the retry. -/
def publicUrl (sheet_id : String) : String :=
  "https://docs.google.com/spreadsheets/d/" ++ sheet_id ++
    "/export?format=csv&id=" ++ sheet_id ++ "&gid=0"

/-- Body of the `try` block of `fetch_sheet_data` once `csv_url` is
known; `sheet_id?` is `none` when the `docs.google.com` branch that
binds `sheet_id` was not taken (a later use then raises `NameError`). -/
def fetchCore (sheet_id? : Option String) (csv_url : String)
    (transport : String → FetchResp) : String :=
  match transport csv_url with
  | FetchResp.exc m => "Error fetching sheet: " ++ m
  | FetchResp.ok status content =>
    if status = 200 then
      if strStartsWith (pyStrip content) "<" then
        match sheet_id? with
        | none => "Error fetching sheet: name \x27sheet_id\x27 is not defined"
        | some sid =>
          match transport (publicUrl sid) with
          | FetchResp.exc m => "Error fetching sheet: " ++ m
          | FetchResp.ok status2 content2 =>
            if status2 = 200 ∧ ¬strStartsWith (pyStrip content2) "<" then
              content2
            else
              MOCK_SHEET_DATA
      else content
    else "Error fetching sheet: HTTP " ++ toString status

/-- `GoogleSheetsManager.fetch_sheet_data(sheets_url)` over a
transport oracle. -/
def fetch_sheet_data (sheets_url : String) (transport : String → FetchResp) :
    String :=
  if strContains sheets_url "docs.google.com/spreadsheets" then
    match extractSheetId sheets_url with
    | none => "Error fetching sheet: list index out of range"
    | some sid => fetchCore (some sid) (exportUrl sid) transport
  else
    fetchCore none sheets_url transport

/-! ## LLM collaborator boundary

`recognize_intent` and `parse_sheet_data` send a prompt to Gemini and
post-process the response text identically: find the (leftmost,
greedy) match of the regex `\{.*\}` with `DOTALL`, i.e. the substring
from the first opening brace to the last closing brace after it, and
feed it to `json.loads`.  The LLM call is modelled as an `LLMOutcome`
oracle; `json.loads` on the matched text is modelled as a decoder
oracle returning the fields the source subsequently reads (`none`
models a raised `json.JSONDecodeError` — caught by the `except`). -/

/-- Outcome of one LLM call: a raised exception (with its `str`) or a
response text. -/
inductive LLMOutcome where
  | exc (msg : String)
  | txt (s : String)

/-- The match of `re.search(r'\{.*\}', s, re.DOTALL)`: from the first
opening brace to the last closing brace, provided the latter comes
after the former. -/
def extractJson (s : String) : Option String :=
  match s.data.findIdx? (· = '\x7b'), (s.data.reverse.findIdx? (· = '\x7d')).map
      (fun j => s.data.length - 1 - j) with
  | some i, some j =>
    if i < j then some (((s.data.drop i).take (j + 1 - i)).asString) else none
  | _, _ => none

/-- The dict produced by `json.loads` in `recognize_intent`, seen
through the keys the source reads (`.get` with `None`-like defaults).
`confidence` is a JSON number, modelled as a rational. -/
structure IntentResult where
  intent : Option String
  google_sheets_url : Option String
  fqdn : Option String
  ip_address : Option String
  subnet : Option String
  confidence : Option Rat
  deriving DecidableEq

/-- `IntentRecognizer.recognize_intent`: the fallback dict
`{"intent": "GENERAL_CHAT", "confidence": 0.5}` is returned both when
no JSON object is found and when any exception is caught. -/
def recognize_intent (outcome : LLMOutcome)
    (loads : String → Option IntentResult) : IntentResult :=
  match outcome with
  | LLMOutcome.exc _ =>
    { intent := some "GENERAL_CHAT", google_sheets_url := none, fqdn := none
      ip_address := none, subnet := none, confidence := some (1 / 2) }
  | LLMOutcome.txt s =>
    match extractJson s with
    | none =>
      { intent := some "GENERAL_CHAT", google_sheets_url := none, fqdn := none
        ip_address := none, subnet := none, confidence := some (1 / 2) }
    | some m =>
      match loads m with
      | some result => result
      | none =>
        { intent := some "GENERAL_CHAT", google_sheets_url := none, fqdn := none
          ip_address := none, subnet := none, confidence := some (1 / 2) }

/-- The dict produced by `json.loads` in `parse_sheet_data`, seen
through the keys the source reads: `"error" in parsed_data`,
`.get("fqdn", ...)`, `.get("subnet", ...)`, `.get("node_ips", [])`.
(`node_names` is never read by the source.) -/
structure ParsedSheet where
  error : Option String
  fqdn : Option String
  subnet : Option String
  node_ips : List String
  deriving DecidableEq

/-- `GoogleSheetsManager.parse_sheet_data` over the LLM and decoder
oracles.  On no JSON match it returns
`{"error": "Could not parse sheet data"}`; a caught exception — from
the LLM call or from `json.loads` (decoder outcome `.error m`, `m`
the exception text) — yields `{"error": "Parsing failed: ..."}`. -/
def parse_sheet_data (outcome : LLMOutcome)
    (loads : String → Except String ParsedSheet) : ParsedSheet :=
  match outcome with
  | LLMOutcome.exc m =>
    { error := some ("Parsing failed: " ++ m), fqdn := none, subnet := none
      node_ips := [] }
  | LLMOutcome.txt s =>
    match extractJson s with
    | none =>
      { error := some "Could not parse sheet data", fqdn := none
        subnet := none, node_ips := [] }
    | some m =>
      match loads m with
      | Except.ok result => result
      | Except.error e =>
        { error := some ("Parsing failed: " ++ e), fqdn := none
          subnet := none, node_ips := [] }

/-! ## DNS Agent (`DNSAgent`)

`create_dns_record` is a mock that always succeeds; the only
effectful ingredient is `datetime.utcnow()`, modelled by an abstract
tick counter threaded through the computation (each call to the clock
returns the current tick and advances it). -/

/-- The dict returned by `DNSAgent.create_dns_record`. -/
structure DnsRecord where
  status : String
  fqdn : String
  ip_address : String
  record_type : String
  created_at : Nat
  deriving DecidableEq

/-- `DNSAgent.create_dns_record(fqdn, ip_address)` at clock tick `ts`. -/
def create_dns_record (fqdn ip_address : String) (ts : Nat) : DnsRecord :=
  { status := "success", fqdn := fqdn, ip_address := ip_address
    record_type := "A", created_at := ts }

/-- The merged dict `{**allocation, "dns_status": ..., "created_at": ...}`
appended by `create_cluster_records` for each non-error allocation. -/
structure ClusterRecord where
  alloc : NodeAllocation
  dns_status : String
  created_at : Nat
  deriving DecidableEq

/-- `DNSAgent.create_cluster_records(allocations)`: one record per
allocation dict that has no `"error"` key, in input order; error
entries are skipped.  Returns the records and the advanced clock. -/
def create_cluster_records : List AllocEntry → Nat → List ClusterRecord × Nat
  | [], n => ([], n)
  | AllocEntry.error _ :: rest, n => create_cluster_records rest n
  | AllocEntry.node a :: rest, n =>
    let record := create_dns_record a.fqdn a.allocated_ip n
    let tail := create_cluster_records rest (n + 1)
    (⟨a, record.status, record.created_at⟩ :: tail.1, tail.2)

/-! ## Workflow state (`AgentState`)

Direct translation of the pydantic model.  Fields the stage functions
never read nor write (`cluster_info`, `response_data`) are omitted;
`messages` is kept because the entry point initialises it.  Python
`None` becomes `Option`; truthiness tests `not x` on optional strings
are `optStrFalsy` (false for a nonempty string). -/

/-- One entry of `workflow_progress` as appended by
`add_progress_step`.  The only non-empty `details` dict passed
anywhere in the source is `{"intent": ..., "confidence": ...}` from
the intent stage, modelled as the optional pair. -/
structure ProgressEntry where
  agent : String
  status : String
  message : String
  timestamp : Nat
  details : Option (String × Rat)
  deriving DecidableEq

/-- An element of `state.dns_records`: the single-record dict from
`create_dns_record` or a merged cluster record dict. -/
inductive DnsRecordEntry where
  | single (r : DnsRecord)
  | clusterRec (c : ClusterRecord)
  deriving DecidableEq

/-- One row of `state.response_table`: the insertion-ordered dict
built by the formatter. -/
def TableRow := List (String × String)

/-- Python truthiness of an optional string: `not x` is true for
`None` and for the empty string. -/
def optStrFalsy : Option String → Bool
  | none => true
  | some s => s = ""

/-- Python `f"{x}"` on an optional string: `None` renders as
`"None"`. -/
def optRepr : Option String → String
  | none => "None"
  | some s => s

/-- The `AgentState` pydantic model. -/
structure AgentState where
  messages : List (String × String)
  user_input : String
  intent : String
  sheets_url : Option String
  sheets_data : Option ParsedSheet
  dns_records : List DnsRecordEntry
  ip_allocations : List AllocEntry
  fqdn : Option String
  ip_address : Option String
  subnet : Option String
  current_step : String
  response_message : String
  response_table : Option (List TableRow)
  workflow_progress : List ProgressEntry
  current_agent : String
  error : Option String

/-- `AgentState.add_progress_step`: appends one progress entry (with a
fresh timestamp from the clock tick `ts`) and records the agent as
current. -/
def AgentState.add_progress_step (s : AgentState) (agent_name status message : String)
    (details : Option (String × Rat)) (ts : Nat) : AgentState :=
  { s with
    workflow_progress :=
      s.workflow_progress ++ [⟨agent_name, status, message, ts, details⟩]
    current_agent := agent_name }

/-- The state built by the `/api/chat` endpoint for one request. -/
def initialState (input : String) : AgentState :=
  { messages := [("user", input)], user_input := input, intent := ""
    sheets_url := none, sheets_data := none, dns_records := []
    ip_allocations := [], fqdn := none, ip_address := none, subnet := none
    current_step := "initial", response_message := "", response_table := none
    workflow_progress := [], current_agent := "", error := none }

/-! ## Collaborator environment for one request

Each workflow run calls the intent LLM at most once, the sheet-parse
LLM at most once, and the HTTP transport with the URL as argument, so
modelling the two LLM calls by fixed per-run outcomes loses no
generality. -/

/-- All external collaborators consulted during one request. -/
structure Env where
  intentOutcome : LLMOutcome
  intentLoads : String → Option IntentResult
  transport : String → FetchResp
  parseOutcome : LLMOutcome
  parseLoads : String → Except String ParsedSheet

/-! ## Stage functions (LangGraph nodes)

Each Python stage wraps its body in `try`/`except`; in the embedding
every body is total (collaborator failures are already materialised in
`Env`), so the `except` branches are unreachable and do not appear.
The clock tick is threaded wherever the source calls
`datetime.utcnow()`. -/

/-- `intent_recognition_agent`: appends the `started` entry, consults
the recogniser, copies the extracted fields into the state, appends
the `completed` entry. -/
def intent_recognition_agent (env : Env) (s : AgentState) (n : Nat) :
    AgentState × Nat :=
  let s1 := s.add_progress_step "Intent Recognition Agent" "started"
    "Analyzing user input to determine intent..." none n
  let intent_result := recognize_intent env.intentOutcome env.intentLoads
  let intent := intent_result.intent.getD "GENERAL_CHAT"
  let s2 := { s1 with
    intent := intent
    sheets_url := intent_result.google_sheets_url
    fqdn := intent_result.fqdn
    ip_address := intent_result.ip_address
    subnet := intent_result.subnet
    current_step := "intent_recognized" }
  let s3 := s2.add_progress_step "Intent Recognition Agent" "completed"
    ("Intent recognized: " ++ intent)
    (some (intent, intent_result.confidence.getD (9 / 10))) (n + 1)
  (s3, n + 2)

/-- `sheets_parsing_agent`: fetches and parses the sheet; on any
failure it sets `state.error` and returns; it appends no progress
entries. -/
def sheets_parsing_agent (env : Env) (s : AgentState) : AgentState :=
  if optStrFalsy s.sheets_url then
    { s with error := some "No Google Sheets URL provided" }
  else
    let sheet_content := fetch_sheet_data (optRepr s.sheets_url) env.transport
    if strStartsWith sheet_content "Error" then
      { s with error := some sheet_content }
    else
      let parsed_data := parse_sheet_data env.parseOutcome env.parseLoads
      match parsed_data.error with
      | some e => { s with error := some e }
      | none =>
        { s with
          sheets_data := some parsed_data
          fqdn := match parsed_data.fqdn with
            | some f => some f
            | none => s.fqdn
          subnet := match parsed_data.subnet with
            | some sub => some sub
            | none => s.subnet
          current_step := "sheets_parsed" }

/-- `ip_allocation_agent`: precondition checks write `state.error`
(overwriting whatever was there); otherwise calls the allocator.
`state.fqdn` is passed into the `f`-strings of `allocate_ips`, so
`None` renders as `"None"`. -/
def ip_allocation_agent (s : AgentState) : AgentState :=
  if s.sheets_data.isNone || optStrFalsy s.subnet then
    { s with error := some "Missing sheet data or subnet information" }
  else
    let node_ips := (s.sheets_data.map ParsedSheet.node_ips).getD []
    if node_ips.isEmpty then
      { s with error := some "No node IPs found in sheet data" }
    else
      let allocations := allocate_ips node_ips (optRepr s.subnet) (optRepr s.fqdn)
      { s with ip_allocations := allocations, current_step := "ips_allocated" }

/-- `dns_creation_agent`: single record for `CREATE_DNS_RECORD`,
cluster records when allocations exist, otherwise only the step
marker. -/
def dns_creation_agent (s : AgentState) (n : Nat) : AgentState × Nat :=
  if s.intent = "CREATE_DNS_RECORD" then
    if optStrFalsy s.fqdn || optStrFalsy s.ip_address then
      ({ s with error := some "Missing FQDN or IP address for DNS record" }, n)
    else
      let record := create_dns_record (optRepr s.fqdn) (optRepr s.ip_address) n
      ({ s with
        dns_records := [DnsRecordEntry.single record]
        response_message := "DNS record created successfully!\nFQDN: " ++
          optRepr s.fqdn ++ "\nIP: " ++ optRepr s.ip_address
        current_step := "dns_created" }, n + 1)
  else if ¬s.ip_allocations.isEmpty then
    let rs := create_cluster_records s.ip_allocations n
    ({ s with
      dns_records := rs.1.map DnsRecordEntry.clusterRec
      response_message := "Created " ++ toString rs.1.length ++
        " DNS records for OpenShift cluster"
      current_step := "dns_created" }, rs.2)
  else
    ({ s with current_step := "dns_created" }, n)

/-- The numbered console-IP lines of the `PARSE_SHEETS` summary:
`"  {i}. {ip}\n"` with `i` counting from 1. -/
def enumIps : List String → Nat → String
  | [], _ => ""
  | ip :: rest, i => "  " ++ toString i ++ ". " ++ ip ++ "\n" ++ enumIps rest (i + 1)

/-- The table row built for one non-error allocation in the
`CREATE_CLUSTER` branch of the formatter. -/
def clusterRow (a : NodeAllocation) : TableRow :=
  [("Node Type", strUpper a.node_type), ("Hostname", a.hostname),
   ("FQDN", a.fqdn), ("Console IP", a.console_ip),
   ("Allocated IP", a.allocated_ip), ("Status", "✅ Created")]

/-- The table row built for one non-error allocation in the
`ALLOCATE_IPS` branch of the formatter. -/
def allocRow (a : NodeAllocation) : TableRow :=
  [("Node Type", strUpper a.node_type), ("Hostname", a.hostname),
   ("FQDN", a.fqdn), ("Console IP", a.console_ip),
   ("Allocated IP", a.allocated_ip)]

/-- The fixed help message of the fall-through intent branch. -/
def helpMessage : String :=
  "👋 Hello! I\x27m your OpenShift Cluster Management Assistant.\n\n" ++
  "I can help you with:\n\n" ++
  "🚀 **Create OpenShift Cluster:**\n" ++
  "\"Hey, I want to build new openshift cluster, details are at google sheet <link>\"\n\n" ++
  "🔧 **Create DNS Record:**\n" ++
  "\"Hey, can you create a DNS A record for IP 1.2.3.4 and FQDN is abc.com\"\n\n" ++
  "📋 **Parse Google Sheets:**\n" ++
  "\"Hey, can you parse google sheet at <link> and provide FQDN and subnet and list console IPs of the nodes\"\n\n" ++
  "🔢 **Allocate IPs:**\n" ++
  "\"Hey, allocate IPs for all the nodes listed in google sheet <link> with the subnet\"\n\n" ++
  "Just type your request and I\x27ll help you manage your OpenShift infrastructure!"

/-- `response_formatter_agent`: when `state.error` is set the message
renders the error and the function returns at once (in particular the
table and `current_step` are left untouched); otherwise it branches on
the intent. -/
def response_formatter_agent (s : AgentState) : AgentState :=
  match s.error with
  | some e => { s with response_message := "❌ Error: " ++ e }
  | none =>
    if s.intent = "CREATE_CLUSTER" then
      { s with
        response_message :=
          "✅ OpenShift cluster setup completed!\n\n" ++
          "📋 Cluster Details:\n" ++
          "• FQDN: " ++ optRepr s.fqdn ++ "\n" ++
          "• Subnet: " ++ optRepr s.subnet ++ "\n" ++
          "• Total Nodes: " ++ toString s.ip_allocations.length ++ "\n" ++
          "• DNS Records Created: " ++ toString s.dns_records.length ++ "\n\n" ++
          "📊 Node Details (see table below):"
        response_table := some (s.ip_allocations.filterMap fun a =>
          match a with
          | AllocEntry.node alloc => some (clusterRow alloc)
          | AllocEntry.error _ => none)
        current_step := "response_formatted" }
    else if s.intent = "PARSE_SHEETS" then
      { s with
        response_message :=
          "📋 Google Sheets Analysis:\n\n" ++
          (match s.sheets_data with
           | some d =>
             "• FQDN: " ++ d.fqdn.getD "Not found" ++ "\n" ++
             "• Subnet: " ++ d.subnet.getD "Not found" ++ "\n" ++
             "• Node IPs: " ++ toString d.node_ips.length ++ " found\n\n" ++
             "📊 Console IPs:\n" ++ enumIps d.node_ips 1
           | none => "")
        current_step := "response_formatted" }
    else if s.intent = "ALLOCATE_IPS" then
      { s with
        response_message :=
          "🔢 IP Allocation completed!\n\n" ++
          "📋 Allocation Details:\n" ++
          "• FQDN: " ++ optRepr s.fqdn ++ "\n" ++
          "• Subnet: " ++ optRepr s.subnet ++ "\n" ++
          "• Total Nodes: " ++ toString s.ip_allocations.length ++ "\n\n" ++
          "📊 IP Allocation Table (see below):"
        response_table := some (s.ip_allocations.filterMap fun a =>
          match a with
          | AllocEntry.node alloc => some (allocRow alloc)
          | AllocEntry.error _ => none)
        current_step := "response_formatted" }
    else if s.intent = "CREATE_DNS_RECORD" then
      { s with current_step := "response_formatted" }
    else
      { s with response_message := helpMessage
               current_step := "response_formatted" }

/-! ## Conditional routing (`create_workflow`)

The three routing callbacks take the whole state but branch only on
`state.intent`. -/

/-- `route_after_intent`. -/
def route_after_intent (s : AgentState) : String :=
  if s.intent = "CREATE_CLUSTER" then "sheets_parsing"
  else if s.intent = "PARSE_SHEETS" then "sheets_parsing"
  else if s.intent = "ALLOCATE_IPS" then "sheets_parsing"
  else if s.intent = "CREATE_DNS_RECORD" then "dns_creation"
  else "response_formatter"

/-- `route_after_sheets`. -/
def route_after_sheets (s : AgentState) : String :=
  if s.intent = "CREATE_CLUSTER" then "ip_allocation"
  else if s.intent = "ALLOCATE_IPS" then "ip_allocation"
  else "response_formatter"

/-- `route_after_ip_allocation`. -/
def route_after_ip_allocation (s : AgentState) : String :=
  if s.intent = "CREATE_CLUSTER" then "dns_creation"
  else "response_formatter"

/-! ## One start-to-terminal execution of the compiled graph

`create_workflow` wires `intent_recognition` as entry point, the three
conditional edges, the fixed edge `dns_creation → response_formatter`
and `response_formatter → END`.  `run` executes one request and also
returns the list of visited node names, in execution order. -/

/-- Execute the workflow graph on one request.  Returns the terminal
state and the ordered list of visited stage names. -/
def run (env : Env) (input : String) : AgentState × List String :=
  let r1 := intent_recognition_agent env (initialState input) 0
  let s1 := r1.1
  if route_after_intent s1 = "sheets_parsing" then
    let s2 := sheets_parsing_agent env s1
    if route_after_sheets s2 = "ip_allocation" then
      let s3 := ip_allocation_agent s2
      if route_after_ip_allocation s3 = "dns_creation" then
        let s4 := (dns_creation_agent s3 r1.2).1
        (response_formatter_agent s4,
          ["intent_recognition", "sheets_parsing", "ip_allocation",
           "dns_creation", "response_formatter"])
      else
        (response_formatter_agent s3,
          ["intent_recognition", "sheets_parsing", "ip_allocation",
           "response_formatter"])
    else
      (response_formatter_agent s2,
        ["intent_recognition", "sheets_parsing", "response_formatter"])
  else if route_after_intent s1 = "dns_creation" then
    let s2 := (dns_creation_agent s1 r1.2).1
    (response_formatter_agent s2,
      ["intent_recognition", "dns_creation", "response_formatter"])
  else
    (response_formatter_agent s1,
      ["intent_recognition", "response_formatter"])

/-! ## Shared lemmas -/

theorem exceptMapM_ok {α β : Type} (f : α → Except String β) (g : α → β) :
    ∀ (l : List α), (∀ a ∈ l, f a = Except.ok (g a)) →
    l.mapM f = Except.ok (l.map g)
  | [], _ => rfl
  | a :: l, h => by
    rw [List.mapM_cons, h a (by simp),
      exceptMapM_ok f g l (fun x hx => h x (by simp [hx]))]
    rfl

theorem exceptMapM_err {α β : Type} (f : α → Except String β) (msg : String) :
    ∀ (l : List α),
    (∀ a ∈ l, f a = Except.error msg ∨ ∃ b, f a = Except.ok b) →
    (∃ a ∈ l, f a = Except.error msg) →
    l.mapM f = Except.error msg
  | [], _, hex => by simp at hex
  | a :: l, hall, hex => by
    rcases hall a (by simp) with ha | ⟨b, hb⟩
    · rw [List.mapM_cons, ha]; rfl
    · have : ∃ x ∈ l, f x = Except.error msg := by
        rcases hex with ⟨x, hx, hfx⟩
        rcases List.mem_cons.mp hx with rfl | hxl
        · rw [hb] at hfx; exact absurd hfx (by simp)
        · exact ⟨x, hxl, hfx⟩
      rw [List.mapM_cons, hb,
        exceptMapM_err f msg l (fun x hx => hall x (by simp [hx])) this]
      rfl

theorem allocOne_eq_ok (node_ips available_ips : List String)
    (subnet fqdn role : String) (i ord : Nat) (h : i < available_ips.length) :
    allocOne node_ips available_ips subnet fqdn role i ord = Except.ok
      { node_type := role, hostname := role ++ "-" ++ pad2 ord
        fqdn := role ++ "-" ++ pad2 ord ++ "." ++ fqdn
        console_ip := node_ips.getD i ""
        allocated_ip := available_ips.getD i "", subnet := subnet } := by
  unfold allocOne
  rw [List.getElem?_eq_getElem h]
  rw [List.getD_eq_getElem available_ips "" h]

theorem allocOne_eq_err (node_ips available_ips : List String)
    (subnet fqdn role : String) (i ord : Nat) (h : available_ips.length ≤ i) :
    allocOne node_ips available_ips subnet fqdn role i ord =
      Except.error "list index out of range" := by
  unfold allocOne
  rw [List.getElem?_eq_none h]

/-- The allocation the specification describes at position `i`:
role from the position alone, role-local zero-based ordinal,
zero-padded hostname, positional console and allocated IPs,
`{hostname}.{fqdn}`. -/
def specAllocation (node_ips available_ips : List String)
    (subnet fqdn : String) (i : Nat) : NodeAllocation :=
  let role := if i < 3 then "master" else "worker"
  let ord := if i < 3 then i else i - 3
  { node_type := role, hostname := role ++ "-" ++ pad2 ord
    fqdn := role ++ "-" ++ pad2 ord ++ "." ++ fqdn
    console_ip := node_ips.getD i ""
    allocated_ip := available_ips.getD i "", subnet := subnet }

theorem range_min_split {β : Type} (N : Nat) (g : Nat → β) :
    (List.range (min 3 N)).map g ++ (List.range (N - 3)).map (fun k => g (3 + k)) =
      (List.range N).map g := by
  rcases Nat.le_total N 3 with h | h
  · rw [Nat.min_eq_right h, Nat.sub_eq_zero_of_le h]
    simp
  · rw [Nat.min_eq_left h]
    have hsplit : List.range N =
        List.range 3 ++ (List.range (N - 3)).map (fun x => 3 + x) := by
      conv_lhs => rw [show N = 3 + (N - 3) by omega]
      exact List.range_add 3 (N - 3)
    rw [hsplit, List.map_append, List.map_map]
    rfl

/-- **C1.** For every valid CIDR subnet with at least `N` usable host
addresses and every list of `N` console IPs, `allocate_ips` returns
exactly `N` node allocations in input order: position `i < 3` is a
master with ordinal `i`, position `i ≥ 3` a worker with ordinal
`i - 3`, hostname `role-NN` zero-padded to width 2, `fqdn`
`{hostname}.{fqdn}`, `console_ip` the `i`-th input IP and
`allocated_ip` the `i`-th usable host address.  (`allocate_ips` is a
pure function, so the result depends on nothing but these inputs.) -/
theorem allocate_ips_returns_positional_allocations
    (node_ips : List String) (subnet fqdn : String) (net : IPNetwork)
    (hnet : ip_network subnet = some net)
    (hlen : node_ips.length ≤ (hostsList net).length) :
    allocate_ips node_ips subnet fqdn =
      (List.range node_ips.length).map (fun i => AllocEntry.node
        (specAllocation node_ips ((hostsList net).map ipToDotted) subnet fqdn i)) := by
  unfold allocate_ips
  rw [hnet]
  have hlenA : node_ips.length ≤ ((hostsList net).map ipToDotted).length := by
    simpa using hlen
  set A := (hostsList net).map ipToDotted with hA
  have hmasters : (List.range (min 3 node_ips.length)).mapM
      (fun i => allocOne node_ips A subnet fqdn "master" i i) =
      Except.ok ((List.range (min 3 node_ips.length)).map
        (fun i => specAllocation node_ips A subnet fqdn i)) := by
    apply exceptMapM_ok
    intro i hi
    rw [List.mem_range] at hi
    have h3 : i < 3 := lt_of_lt_of_le hi (Nat.min_le_left _ _)
    have hiN : i < node_ips.length := lt_of_lt_of_le hi (Nat.min_le_right _ _)
    rw [allocOne_eq_ok node_ips A subnet fqdn "master" i i
      (lt_of_lt_of_le hiN hlenA)]
    simp [specAllocation, h3]
  have hworkers : (List.range (node_ips.length - 3)).mapM
      (fun k => allocOne node_ips A subnet fqdn "worker" (3 + k) k) =
      Except.ok ((List.range (node_ips.length - 3)).map
        (fun k => specAllocation node_ips A subnet fqdn (3 + k))) := by
    apply exceptMapM_ok
    intro k hk
    rw [List.mem_range] at hk
    have hiN : 3 + k < node_ips.length := by omega
    rw [allocOne_eq_ok node_ips A subnet fqdn "worker" (3 + k) k
      (lt_of_lt_of_le hiN hlenA)]
    have hlt : ¬ (3 + k < 3) := by omega
    simp [specAllocation, hlt, Nat.add_sub_cancel_left]
  simp only [bind, Except.bind, hmasters, hworkers, pure, Except.pure]
  rw [range_min_split node_ips.length
    (fun i => specAllocation node_ips A subnet fqdn i)]
  rw [List.map_map]
  rfl

/-- Witness for C1: the five-node example on `10.0.0.0/29`. -/
theorem allocate_ips_returns_positional_allocations_witness :
    allocate_ips ["10.8.8.8", "10.8.8.9", "10.8.8.10", "10.8.8.11", "10.8.8.12"]
        "10.0.0.0/29" "cluster.example.com" =
      (List.range 5).map (fun i => AllocEntry.node
        (specAllocation
          ["10.8.8.8", "10.8.8.9", "10.8.8.10", "10.8.8.11", "10.8.8.12"]
          ((hostsList ⟨167772160, 29⟩).map ipToDotted)
          "10.0.0.0/29" "cluster.example.com" i)) :=
  allocate_ips_returns_positional_allocations
    ["10.8.8.8", "10.8.8.9", "10.8.8.10", "10.8.8.11", "10.8.8.12"]
    "10.0.0.0/29" "cluster.example.com" ⟨167772160, 29⟩
    (by decide) (by decide)

/-- **C5.** When the subnet has fewer usable host addresses than there
are console IPs, `allocate_ips` returns the single allocation-failure
entry (the `IndexError` raised inside the loops discards every
allocation built so far), never a truncated allocation list. -/
theorem allocate_ips_insufficient_space_fails
    (node_ips : List String) (subnet fqdn : String) (net : IPNetwork)
    (hnet : ip_network subnet = some net)
    (hlen : (hostsList net).length < node_ips.length) :
    allocate_ips node_ips subnet fqdn =
      [AllocEntry.error "IP allocation failed: list index out of range"] := by
  unfold allocate_ips
  rw [hnet]
  set A := (hostsList net).map ipToDotted with hA
  have hAlen : A.length = (hostsList net).length := by simp [hA]
  have hall : ∀ (role : String) (idx ordf : Nat → Nat), ∀ i : Nat,
      allocOne node_ips A subnet fqdn role (idx i) (ordf i) =
        Except.error "list index out of range" ∨
      ∃ b, allocOne node_ips A subnet fqdn role (idx i) (ordf i) = Except.ok b := by
    intro role idx ordf i
    rcases Nat.lt_or_ge (idx i) A.length with h | h
    · exact Or.inr ⟨_, allocOne_eq_ok node_ips A subnet fqdn role (idx i) (ordf i) h⟩
    · exact Or.inl (allocOne_eq_err node_ips A subnet fqdn role (idx i) (ordf i) h)
  rcases Nat.lt_or_ge A.length (min 3 node_ips.length) with hcase | hcase
  · -- the master loop already runs out of host addresses
    have hm : (List.range (min 3 node_ips.length)).mapM
        (fun i => allocOne node_ips A subnet fqdn "master" i i) =
        Except.error "list index out of range" := by
      apply exceptMapM_err
      · intro i _
        exact hall "master" id id i
      · exact ⟨A.length, List.mem_range.mpr hcase,
          allocOne_eq_err node_ips A subnet fqdn "master" A.length A.length
            (le_refl _)⟩
    simp only [bind, Except.bind, hm]
    decide
  · -- masters fit, the worker loop runs out of host addresses
    have hN3 : 3 < node_ips.length := by omega
    have hA3 : 3 ≤ A.length := by
      have := Nat.min_eq_left (le_of_lt hN3)
      omega
    have hm : (List.range (min 3 node_ips.length)).mapM
        (fun i => allocOne node_ips A subnet fqdn "master" i i) =
        Except.ok ((List.range (min 3 node_ips.length)).map
          (fun i => specAllocation node_ips A subnet fqdn i)) := by
      apply exceptMapM_ok
      intro i hi
      rw [List.mem_range] at hi
      have h3 : i < 3 := lt_of_lt_of_le hi (Nat.min_le_left _ _)
      rw [allocOne_eq_ok node_ips A subnet fqdn "master" i i (by omega)]
      simp [specAllocation, h3]
    have hw : (List.range (node_ips.length - 3)).mapM
        (fun k => allocOne node_ips A subnet fqdn "worker" (3 + k) k) =
        Except.error "list index out of range" := by
      apply exceptMapM_err
      · intro k _
        exact hall "worker" (fun k => 3 + k) id k
      · refine ⟨A.length - 3, List.mem_range.mpr (by omega), ?_⟩
        have h3A : 3 + (A.length - 3) = A.length := by omega
        rw [h3A]
        exact allocOne_eq_err node_ips A subnet fqdn "worker" A.length
          (A.length - 3) (le_refl _)
    simp only [bind, Except.bind, hm, hw]
    decide

/-- Witness for C5: four node IPs against `/30` (two usable hosts). -/
theorem allocate_ips_insufficient_space_fails_witness :
    allocate_ips ["10.8.8.8", "10.8.8.9", "10.8.8.10", "10.8.8.11"]
        "10.0.0.0/30" "x.com" =
      [AllocEntry.error "IP allocation failed: list index out of range"] :=
  allocate_ips_insufficient_space_fails
    ["10.8.8.8", "10.8.8.9", "10.8.8.10", "10.8.8.11"] "10.0.0.0/30" "x.com"
    ⟨167772160, 30⟩ (by decide) (by decide)

/-- **C2.** The three routing callbacks implement exactly the routing
table of the specification, and each is a function of `state.intent`
alone: two states agreeing on `intent` route identically, whatever
their `error` or any other field. -/
theorem routing_is_function_of_intent (s : AgentState) :
    (route_after_intent s =
      if s.intent = "CREATE_CLUSTER" ∨ s.intent = "PARSE_SHEETS" ∨
          s.intent = "ALLOCATE_IPS" then "sheets_parsing"
      else if s.intent = "CREATE_DNS_RECORD" then "dns_creation"
      else "response_formatter")
    ∧ (route_after_sheets s =
      if s.intent = "CREATE_CLUSTER" ∨ s.intent = "ALLOCATE_IPS" then
        "ip_allocation"
      else "response_formatter")
    ∧ (route_after_ip_allocation s =
      if s.intent = "CREATE_CLUSTER" then "dns_creation"
      else "response_formatter")
    ∧ (∀ t : AgentState, s.intent = t.intent →
        route_after_intent s = route_after_intent t ∧
        route_after_sheets s = route_after_sheets t ∧
        route_after_ip_allocation s = route_after_ip_allocation t) := by
  refine ⟨?_, ?_, ?_, ?_⟩
  · unfold route_after_intent
    split_ifs <;> simp_all
  · unfold route_after_sheets
    split_ifs <;> simp_all
  · rfl
  · intro t h
    unfold route_after_intent route_after_sheets route_after_ip_allocation
    rw [h]
    exact ⟨rfl, rfl, rfl⟩

/-- Witness for C2: a state with intent `CREATE_DNS_RECORD` routes to
`dns_creation` after intent recognition, and two states differing in
everything but the intent route identically. -/
theorem routing_is_function_of_intent_witness :
    route_after_intent { initialState "req" with intent := "CREATE_DNS_RECORD" } =
      "dns_creation"
    ∧ route_after_intent { initialState "req" with intent := "CREATE_DNS_RECORD" } =
      route_after_intent { initialState "other" with
        intent := "CREATE_DNS_RECORD", error := some "boom" } := by
  constructor
  · rw [(routing_is_function_of_intent
      { initialState "req" with intent := "CREATE_DNS_RECORD" }).1]
    decide
  · exact ((routing_is_function_of_intent
      { initialState "req" with intent := "CREATE_DNS_RECORD" }).2.2.2
      { initialState "other" with
        intent := "CREATE_DNS_RECORD", error := some "boom" } rfl).1

/-- The fallback dict
`{"intent": "GENERAL_CHAT", "confidence": 0.5}` of the classifier. -/
def intentFallback : IntentResult :=
  { intent := some "GENERAL_CHAT", google_sheets_url := none, fqdn := none
    ip_address := none, subnet := none, confidence := some (1 / 2) }

/-- **C6.** On every collaborator failure — a raised exception, a
response with no JSON object, or a matched object the decoder rejects
(`json.loads` raising) — `recognize_intent` returns the
`GENERAL_CHAT`/`0.5` fallback; being a total function, it propagates
no exception to its caller. -/
theorem recognize_intent_fallback_on_failure
    (loads : String → Option IntentResult) :
    (∀ m, recognize_intent (LLMOutcome.exc m) loads = intentFallback)
    ∧ (∀ s, extractJson s = none →
        recognize_intent (LLMOutcome.txt s) loads = intentFallback)
    ∧ (∀ s m, extractJson s = some m → loads m = none →
        recognize_intent (LLMOutcome.txt s) loads = intentFallback) := by
  refine ⟨fun m => rfl, fun s hs => ?_, fun s m hs hm => ?_⟩
  · simp only [recognize_intent, hs]
    rfl
  · simp only [recognize_intent, hs, hm]
    rfl

/-- Witness for C6: a raised exception, a braceless response, and a
response whose matched object the decoder rejects, all at a concrete
decoder. -/
theorem recognize_intent_fallback_on_failure_witness :
    recognize_intent (LLMOutcome.exc "timeout") (fun _ => none) = intentFallback
    ∧ recognize_intent (LLMOutcome.txt "no json here") (fun _ => none) =
        intentFallback
    ∧ recognize_intent (LLMOutcome.txt "x \x7b broken \x7d y") (fun _ => none) =
        intentFallback :=
  ⟨(recognize_intent_fallback_on_failure (fun _ => none)).1 "timeout",
   (recognize_intent_fallback_on_failure (fun _ => none)).2.1 "no json here"
     (by decide),
   (recognize_intent_fallback_on_failure (fun _ => none)).2.2
     "x \x7b broken \x7d y" "\x7b broken \x7d" (by decide) rfl⟩

/-- The node-allocation payload of an entry, `none` for the
`{"error": ...}` entry. -/
def allocNode? : AllocEntry → Option NodeAllocation
  | AllocEntry.node a => some a
  | AllocEntry.error _ => none

/-- **C10.** `create_cluster_records` creates one record per
allocation without an `"error"` key, in input order, silently
skipping error entries (so the record list may be shorter than the
allocation list, possibly empty); every created record carries the
collaborator success status, and the message reported by
`dns_creation_agent` counts exactly the non-error allocations. -/
theorem create_cluster_records_skips_error_allocations
    (allocations : List AllocEntry) (n : Nat) :
    (create_cluster_records allocations n).1.map ClusterRecord.alloc =
      allocations.filterMap allocNode?
    ∧ (∀ c ∈ (create_cluster_records allocations n).1, c.dns_status = "success")
    ∧ (∀ s : AgentState, s.intent ≠ "CREATE_DNS_RECORD" →
        s.ip_allocations = allocations → allocations ≠ [] →
        (dns_creation_agent s n).1.response_message =
          "Created " ++ toString (allocations.filterMap allocNode?).length ++
            " DNS records for OpenShift cluster") := by
  have hmap : ∀ (l : List AllocEntry) (m : Nat),
      (create_cluster_records l m).1.map ClusterRecord.alloc =
        l.filterMap allocNode? := by
    intro l
    induction l with
    | nil => intro m; rfl
    | cons e rest ih =>
      intro m
      cases e with
      | node a => simp [create_cluster_records, allocNode?, ih]
      | error msg => simp [create_cluster_records, allocNode?, ih]
  have hstatus : ∀ (l : List AllocEntry) (m : Nat),
      ∀ c ∈ (create_cluster_records l m).1, c.dns_status = "success" := by
    intro l
    induction l with
    | nil => intro m c hc; simp [create_cluster_records] at hc
    | cons e rest ih =>
      intro m c hc
      cases e with
      | node a =>
        simp only [create_cluster_records, List.mem_cons] at hc
        rcases hc with rfl | hc
        · rfl
        · exact ih (m + 1) c hc
      | error msg => exact ih m c hc
  refine ⟨hmap allocations n, hstatus allocations n, fun s hintent halloc hne => ?_⟩
  unfold dns_creation_agent
  rw [if_neg hintent, if_pos]
  · have hlen : (create_cluster_records allocations n).1.length =
        (allocations.filterMap allocNode?).length := by
      rw [← hmap allocations n, List.length_map]
    simp only [halloc, hlen]
  · rw [halloc]
    simp [List.isEmpty_iff, hne]

/-- A sample allocation used by witnesses. -/
def demoAlloc (k : String) : NodeAllocation :=
  { node_type := "master", hostname := "master-0" ++ k
    fqdn := "master-0" ++ k ++ ".c.com", console_ip := "10.8.8." ++ k
    allocated_ip := "10.0.0." ++ k, subnet := "10.0.0.0/29" }

/-- A sample allocation list containing an error entry. -/
def demoAllocs : List AllocEntry :=
  [AllocEntry.node (demoAlloc "1"), AllocEntry.error "IP allocation failed: x",
   AllocEntry.node (demoAlloc "2")]

/-- Witness for C10: two of three allocations survive; the reported
count is 2. -/
theorem create_cluster_records_skips_error_allocations_witness :
    (create_cluster_records demoAllocs 0).1.map ClusterRecord.alloc =
      demoAllocs.filterMap allocNode?
    ∧ (dns_creation_agent
        { initialState "req" with
          intent := "CREATE_CLUSTER", ip_allocations := demoAllocs } 0).1.response_message =
      "Created 2 DNS records for OpenShift cluster" := by
  refine ⟨(create_cluster_records_skips_error_allocations demoAllocs 0).1, ?_⟩
  rw [(create_cluster_records_skips_error_allocations demoAllocs 0).2.2
    { initialState "req" with
      intent := "CREATE_CLUSTER", ip_allocations := demoAllocs }
    (by decide) rfl (by decide)]
  decide

/-- A transport whose every response is an HTML access-denied page
with status 200. -/
def deniedTransport : String → FetchResp :=
  fun _ => FetchResp.ok 200 "<html>access denied</html>"

/-- Counterexample to C3: with both the export fetch and the
alternate-URL retry returning an HTML page, `fetch_sheet_data`
returns the hard-coded mock sheet data — not a fetch error. -/
theorem fetch_both_attempts_fail_returns_mock :
    fetch_sheet_data "https://docs.google.com/spreadsheets/d/ABC123/edit"
        deniedTransport = MOCK_SHEET_DATA
    ∧ strStartsWith MOCK_SHEET_DATA "Error" = false := by
  constructor
  · decide
  · decide

/-- **C3 (amended).** When the first response has a non-success
status, the fetcher returns a fetch error without any retry; when the
first response is a 200 whose body is HTML, it retries the alternate
resolution once, and if the retry also fails (non-200 or HTML again)
it returns the hard-coded mock sheet data instead of a fetch error. -/
theorem fetch_sheet_data_failure_paths
    (url sid : String) (transport : String → FetchResp) (st : Nat) (c : String)
    (hurl : strContains url "docs.google.com/spreadsheets" = true)
    (hsid : extractSheetId url = some sid)
    (h1 : transport (exportUrl sid) = FetchResp.ok st c) :
    (st ≠ 200 →
      fetch_sheet_data url transport =
        "Error fetching sheet: HTTP " ++ toString st)
    ∧ (st = 200 → strStartsWith (pyStrip c) "<" = true →
        ∀ st2 c2, transport (publicUrl sid) = FetchResp.ok st2 c2 →
          ¬(st2 = 200 ∧ strStartsWith (pyStrip c2) "<" = false) →
          fetch_sheet_data url transport = MOCK_SHEET_DATA) := by
  have hred : fetch_sheet_data url transport =
      fetchCore (some sid) (exportUrl sid) transport := by
    simp [fetch_sheet_data, hurl, hsid]
  rw [hred]
  constructor
  · intro hst
    simp [fetchCore, h1, hst]
  · intro hst hhtml st2 c2 h2 hfail
    subst hst
    have h200 : ¬(st2 = 200 ∧ ¬strStartsWith (pyStrip c2) "<" = true) := by
      intro ⟨ha, hb⟩
      exact hfail ⟨ha, by simpa using hb⟩
    simp [fetchCore, h1, hhtml, h2, h200]
    intro ha hb
    exact absurd ⟨ha, by simp [hb]⟩ h200

/-- Witness for C3's amended statement: a 404 first response yields
the HTTP error string; a 200 HTML first response with a 403 retry
yields the mock data. -/
theorem fetch_sheet_data_failure_paths_witness :
    (fetch_sheet_data "https://docs.google.com/spreadsheets/d/ABC123/edit"
        (fun _ => FetchResp.ok 404 "nope") =
      "Error fetching sheet: HTTP " ++ toString 404)
    ∧ (fetch_sheet_data "https://docs.google.com/spreadsheets/d/ABC123/edit"
        (fun u => if u = exportUrl "ABC123" then FetchResp.ok 200 "<html>"
                  else FetchResp.ok 403 "denied") = MOCK_SHEET_DATA) := by
  constructor
  · exact (fetch_sheet_data_failure_paths
      "https://docs.google.com/spreadsheets/d/ABC123/edit" "ABC123"
      (fun _ => FetchResp.ok 404 "nope") 404 "nope"
      (by decide) (by decide) rfl).1 (by decide)
  · exact (fetch_sheet_data_failure_paths
      "https://docs.google.com/spreadsheets/d/ABC123/edit" "ABC123"
      (fun u => if u = exportUrl "ABC123" then FetchResp.ok 200 "<html>"
                else FetchResp.ok 403 "denied") 200 "<html>"
      (by decide) (by decide) (by decide)).2 rfl (by decide) 403 "denied"
      (by decide) (by decide)

/-! ## Stage bookkeeping lemmas

Which state fields each stage can touch: used by the end-to-end
claims about the progress trail, the error channel and the response
table. -/

theorem intent_recognition_agent_effects (env : Env) (s : AgentState) (n : Nat) :
    (intent_recognition_agent env s n).1.workflow_progress.map
        (fun e => (e.agent, e.status)) =
      s.workflow_progress.map (fun e => (e.agent, e.status)) ++
        [("Intent Recognition Agent", "started"),
         ("Intent Recognition Agent", "completed")]
    ∧ (intent_recognition_agent env s n).1.response_table = s.response_table
    ∧ (intent_recognition_agent env s n).1.error = s.error := by
  refine ⟨?_, rfl, rfl⟩
  simp [intent_recognition_agent, AgentState.add_progress_step]

theorem sheets_parsing_agent_preserves (env : Env) (s : AgentState) :
    (sheets_parsing_agent env s).workflow_progress = s.workflow_progress
    ∧ (sheets_parsing_agent env s).response_table = s.response_table := by
  unfold sheets_parsing_agent
  split
  · exact ⟨rfl, rfl⟩
  · dsimp only
    split
    · exact ⟨rfl, rfl⟩
    · split
      · exact ⟨rfl, rfl⟩
      · exact ⟨rfl, rfl⟩

theorem ip_allocation_agent_preserves (s : AgentState) :
    (ip_allocation_agent s).workflow_progress = s.workflow_progress
    ∧ (ip_allocation_agent s).response_table = s.response_table := by
  unfold ip_allocation_agent
  split
  · exact ⟨rfl, rfl⟩
  · dsimp only
    split
    · exact ⟨rfl, rfl⟩
    · exact ⟨rfl, rfl⟩

theorem dns_creation_agent_preserves (s : AgentState) (n : Nat) :
    (dns_creation_agent s n).1.workflow_progress = s.workflow_progress
    ∧ (dns_creation_agent s n).1.response_table = s.response_table := by
  unfold dns_creation_agent
  split
  · split
    · exact ⟨rfl, rfl⟩
    · exact ⟨rfl, rfl⟩
  · split
    · exact ⟨rfl, rfl⟩
    · exact ⟨rfl, rfl⟩

theorem response_formatter_agent_preserves (s : AgentState) :
    (response_formatter_agent s).workflow_progress = s.workflow_progress
    ∧ (response_formatter_agent s).error = s.error := by
  cases hs : s.error with
  | some e => simp [response_formatter_agent, hs]
  | none =>
    simp only [response_formatter_agent, hs]
    split_ifs <;> exact ⟨rfl, rfl⟩

theorem response_formatter_agent_error_branch (s : AgentState) (e : String)
    (h : s.error = some e) :
    (response_formatter_agent s).response_message = "❌ Error: " ++ e
    ∧ (response_formatter_agent s).response_table = s.response_table := by
  simp [response_formatter_agent, h]

/-- On every run, the final progress trail consists of exactly the
two entries appended by the intent-recognition stage: no other stage
touches the trail. -/
theorem run_trail (env : Env) (input : String) :
    (run env input).1.workflow_progress.map (fun e => (e.agent, e.status)) =
      [("Intent Recognition Agent", "started"),
       ("Intent Recognition Agent", "completed")] := by
  have hinit : (initialState input).workflow_progress.map
      (fun e => (e.agent, e.status)) = [] := rfl
  have hintent := (intent_recognition_agent_effects env (initialState input) 0).1
  rw [hinit] at hintent
  unfold run
  dsimp only
  split_ifs
  · rw [(response_formatter_agent_preserves _).1,
      (dns_creation_agent_preserves _ _).1, (ip_allocation_agent_preserves _).1,
      (sheets_parsing_agent_preserves env _).1, hintent]
    rfl
  · rw [(response_formatter_agent_preserves _).1,
      (ip_allocation_agent_preserves _).1,
      (sheets_parsing_agent_preserves env _).1, hintent]
    rfl
  · rw [(response_formatter_agent_preserves _).1,
      (sheets_parsing_agent_preserves env _).1, hintent]
    rfl
  · rw [(response_formatter_agent_preserves _).1,
      (dns_creation_agent_preserves _ _).1, hintent]
    rfl
  · rw [(response_formatter_agent_preserves _).1, hintent]
    rfl

/-- **C4 (amended).** Only the intent-recognition stage appends
progress entries — exactly one `started` entry before its work and
one `completed` entry after; the other stages append none.
Consequently in every final state the number of `started` entries
equals the number of `completed` plus `failed` entries. -/
theorem progress_trail_balance (env : Env) (input : String) :
    (run env input).1.workflow_progress.map (fun e => (e.agent, e.status)) =
      [("Intent Recognition Agent", "started"),
       ("Intent Recognition Agent", "completed")]
    ∧ (run env input).1.workflow_progress.countP (fun e => e.status == "started") =
      (run env input).1.workflow_progress.countP (fun e => e.status == "completed") +
        (run env input).1.workflow_progress.countP (fun e => e.status == "failed") := by
  refine ⟨run_trail env input, ?_⟩
  have hcount : ∀ st : String,
      (run env input).1.workflow_progress.countP (fun e => e.status == st) =
        ([("Intent Recognition Agent", "started"),
          ("Intent Recognition Agent", "completed")].countP
            (fun x => x.2 == st)) := by
    intro st
    rw [← run_trail env input, List.countP_map]
    rfl
  rw [hcount "started", hcount "completed", hcount "failed"]
  decide

/-! The environments used by the closed counterexamples and
witnesses.  Their decoder components behave as `json.loads` does on
the concrete response texts involved. -/

/-- An intent-LLM response carrying intent `PARSE_SHEETS` and no
sheet URL. -/
def parseText : String := "\x7b\"intent\": \"PARSE_SHEETS\"\x7d"

/-- Environment: the user asked to parse a sheet, but no URL was
extracted. -/
def envParse : Env :=
  { intentOutcome := LLMOutcome.txt parseText
    intentLoads := fun m =>
      if m = parseText then
        some { intent := some "PARSE_SHEETS", google_sheets_url := none
               fqdn := none, ip_address := none, subnet := none
               confidence := some (9 / 10) }
      else none
    transport := fun _ => FetchResp.exc "unused"
    parseOutcome := LLMOutcome.exc "unused"
    parseLoads := fun _ => Except.error "unused" }

/-- An intent-LLM response carrying intent `CREATE_CLUSTER` and no
sheet URL. -/
def clusterText : String := "\x7b\"intent\": \"CREATE_CLUSTER\"\x7d"

/-- Environment: the user asked to create a cluster, but no URL was
extracted. -/
def envNoUrl : Env :=
  { intentOutcome := LLMOutcome.txt clusterText
    intentLoads := fun m =>
      if m = clusterText then
        some { intent := some "CREATE_CLUSTER", google_sheets_url := none
               fqdn := none, ip_address := none, subnet := none
               confidence := some (9 / 10) }
      else none
    transport := fun _ => FetchResp.exc "unused"
    parseOutcome := LLMOutcome.exc "unused"
    parseLoads := fun _ => Except.error "unused" }

/-- Counterexample to C4: on a `PARSE_SHEETS` request the
`sheets_parsing` stage executes (it appears in the visited-stage
trace) yet the final trail contains no entry from it — in particular
no `started` entry — only the two intent-recognition entries. -/
theorem sheets_stage_appends_no_progress :
    "sheets_parsing" ∈ (run envParse "parse my sheet").2
    ∧ (run envParse "parse my sheet").1.workflow_progress.map
        ProgressEntry.agent =
      ["Intent Recognition Agent", "Intent Recognition Agent"] := by
  constructor
  · decide
  · decide

/-- **C7 (amended).** Downstream stages do not consult `state.error`:
a stage reached after a failure re-runs its own precondition checks
and may overwrite the existing error (`ip_allocation` replaces any
prior error with its own whenever the sheet data is missing).  The
orchestrator still advances along the routing table, so
`response_formatter` is the last stage of every execution. -/
theorem error_not_short_circuited_formatter_always_runs :
    (∀ (env : Env) (input : String),
      ((run env input).2).getLast? = some "response_formatter")
    ∧ (∀ s : AgentState, s.sheets_data = none →
        (ip_allocation_agent s).error =
          some "Missing sheet data or subnet information") := by
  constructor
  · intro env input
    unfold run
    dsimp only
    split_ifs <;> rfl
  · intro s h
    simp [ip_allocation_agent, h]

/-- Witness for C7's amended statement, at the concrete
cluster-without-URL environment. -/
theorem error_not_short_circuited_formatter_always_runs_witness :
    ((run envNoUrl "build a cluster").2).getLast? = some "response_formatter"
    ∧ (ip_allocation_agent
        { initialState "x" with error := some "No Google Sheets URL provided" }).error =
      some "Missing sheet data or subnet information" :=
  ⟨error_not_short_circuited_formatter_always_runs.1 envNoUrl "build a cluster",
   error_not_short_circuited_formatter_always_runs.2
     { initialState "x" with error := some "No Google Sheets URL provided" } rfl⟩

/-- Counterexample to C7: in the cluster-without-URL run the sheets
stage sets an error, the downstream `ip_allocation` stage still does
its precondition work and overwrites that error with a different one,
and `ip_allocation` really executes in this run. -/
theorem downstream_stage_overwrites_error :
    (sheets_parsing_agent envNoUrl
        (intent_recognition_agent envNoUrl (initialState "build a cluster") 0).1).error =
      some "No Google Sheets URL provided"
    ∧ (ip_allocation_agent (sheets_parsing_agent envNoUrl
        (intent_recognition_agent envNoUrl (initialState "build a cluster") 0).1)).error =
      some "Missing sheet data or subnet information"
    ∧ "ip_allocation" ∈ (run envNoUrl "build a cluster").2 := by
  refine ⟨?_, ?_, ?_⟩
  · decide
  · decide
  · decide

/-- **C8.** When intent recognition yields `CREATE_DNS_RECORD` with a
(nonempty) fqdn and ip, the run produces exactly one DNS record,
carrying the collaborator success status (the spec's `created`), and
neither the sheets-parsing nor the IP-allocation stage runs or
contributes progress entries: the trail holds only the
intent-recognition entries. -/
theorem single_dns_record_flow (env : Env) (input f ip : String)
    (hr : (recognize_intent env.intentOutcome env.intentLoads).intent =
      some "CREATE_DNS_RECORD")
    (hf : (recognize_intent env.intentOutcome env.intentLoads).fqdn = some f)
    (hf0 : f ≠ "")
    (hip : (recognize_intent env.intentOutcome env.intentLoads).ip_address =
      some ip)
    (hip0 : ip ≠ "") :
    (run env input).1.dns_records =
      [DnsRecordEntry.single
        { status := "success", fqdn := f, ip_address := ip
          record_type := "A", created_at := 2 }]
    ∧ (run env input).1.workflow_progress.map ProgressEntry.agent =
      ["Intent Recognition Agent", "Intent Recognition Agent"]
    ∧ (run env input).2 = ["intent_recognition", "dns_creation",
        "response_formatter"] := by
  simp [run, intent_recognition_agent, AgentState.add_progress_step,
    initialState, route_after_intent, dns_creation_agent,
    response_formatter_agent, create_dns_record, optStrFalsy, optRepr,
    hr, hf, hip, hf0, hip0]

/-- The intent-LLM response of the single-record scenario. -/
def dnsText : String :=
  "\x7b\"intent\": \"CREATE_DNS_RECORD\", \"fqdn\": \"test.example.com\", " ++
    "\"ip_address\": \"1.2.3.4\", \"confidence\": 0.95\x7d"

/-- Environment: the user asked for one DNS A record for
`test.example.com` at `1.2.3.4`. -/
def envDns : Env :=
  { intentOutcome := LLMOutcome.txt dnsText
    intentLoads := fun m =>
      if m = dnsText then
        some { intent := some "CREATE_DNS_RECORD", google_sheets_url := none
               fqdn := some "test.example.com", ip_address := some "1.2.3.4"
               subnet := none, confidence := some (19 / 20) }
      else none
    transport := fun _ => FetchResp.exc "unused"
    parseOutcome := LLMOutcome.exc "unused"
    parseLoads := fun _ => Except.error "unused" }

/-- Witness for C8: the `test.example.com`/`1.2.3.4` scenario. -/
theorem single_dns_record_flow_witness :
    (run envDns "create a dns record").1.dns_records =
      [DnsRecordEntry.single
        { status := "success", fqdn := "test.example.com"
          ip_address := "1.2.3.4", record_type := "A", created_at := 2 }]
    ∧ (run envDns "create a dns record").1.workflow_progress.map
        ProgressEntry.agent =
      ["Intent Recognition Agent", "Intent Recognition Agent"]
    ∧ (run envDns "create a dns record").2 =
      ["intent_recognition", "dns_creation", "response_formatter"] :=
  single_dns_record_flow envDns "create a dns record" "test.example.com"
    "1.2.3.4" (by decide) (by decide) (by decide) (by decide) (by decide)

/-- **C9.** Whenever the terminal state of a run carries an error,
the formatted message renders that error and the response table is
absent, whatever data earlier stages accumulated. -/
theorem formatter_renders_error_without_table (env : Env) (input e : String)
    (h : (run env input).1.error = some e) :
    (run env input).1.response_message = "❌ Error: " ++ e
    ∧ (run env input).1.response_table = none := by
  unfold run at h ⊢
  dsimp only at h ⊢
  split_ifs at h ⊢
  case _ =>
    rw [(response_formatter_agent_preserves _).2] at h
    obtain ⟨hmsg, htbl⟩ := response_formatter_agent_error_branch _ e h
    refine ⟨hmsg, ?_⟩
    rw [htbl, (dns_creation_agent_preserves _ _).2,
      (ip_allocation_agent_preserves _).2,
      (sheets_parsing_agent_preserves env _).2,
      (intent_recognition_agent_effects env (initialState input) 0).2.1]
    rfl
  case _ =>
    rw [(response_formatter_agent_preserves _).2] at h
    obtain ⟨hmsg, htbl⟩ := response_formatter_agent_error_branch _ e h
    refine ⟨hmsg, ?_⟩
    rw [htbl, (ip_allocation_agent_preserves _).2,
      (sheets_parsing_agent_preserves env _).2,
      (intent_recognition_agent_effects env (initialState input) 0).2.1]
    rfl
  case _ =>
    rw [(response_formatter_agent_preserves _).2] at h
    obtain ⟨hmsg, htbl⟩ := response_formatter_agent_error_branch _ e h
    refine ⟨hmsg, ?_⟩
    rw [htbl, (sheets_parsing_agent_preserves env _).2,
      (intent_recognition_agent_effects env (initialState input) 0).2.1]
    rfl
  case _ =>
    rw [(response_formatter_agent_preserves _).2] at h
    obtain ⟨hmsg, htbl⟩ := response_formatter_agent_error_branch _ e h
    refine ⟨hmsg, ?_⟩
    rw [htbl, (dns_creation_agent_preserves _ _).2,
      (intent_recognition_agent_effects env (initialState input) 0).2.1]
    rfl
  case _ =>
    rw [(response_formatter_agent_preserves _).2] at h
    obtain ⟨hmsg, htbl⟩ := response_formatter_agent_error_branch _ e h
    refine ⟨hmsg, ?_⟩
    rw [htbl,
      (intent_recognition_agent_effects env (initialState input) 0).2.1]
    rfl

/-- Witness for C9: the cluster-without-URL run ends with the
overwritten allocation error rendered and no table, despite upstream
data being absent. -/
theorem formatter_renders_error_without_table_witness :
    (run envNoUrl "build a cluster").1.response_message =
      "❌ Error: " ++ "Missing sheet data or subnet information"
    ∧ (run envNoUrl "build a cluster").1.response_table = none :=
  formatter_renders_error_without_table envNoUrl "build a cluster"
    "Missing sheet data or subnet information" (by decide)

end Server
